import Mathlib

/-!
Shallow embedding of src/src/ngPlacesAutocomplete.js, the single source file
of the ngAutocomplete repository.  The directive glues an input element to
the Google Places autocomplete/geocoding services; its observable behaviour
is modelled here as pure functions on an explicit directive state, returning
the mutated state together with a list of externally visible effects
(network requests issued, scope events emitted, console warnings, DOM blur,
one-shot focusout registration, thrown JavaScript errors).

JavaScript truthiness is modelled explicitly where the code relies on it:
a missing or empty string is falsy, a missing or zero number is falsy, an
object or array is truthy exactly when present.
-/

namespace NgPlacesAutocomplete

/-- A Google Maps LatLngBounds value, kept abstract as four coordinates. -/
structure Bounds where
  north : Int
  south : Int
  east : Int
  west : Int
deriving Repr, DecidableEq

/-- The options binding of the directive (scope.options).  Each field is
optional because the host may supply a partial object; fields mirror the
recognized keys of the source. -/
structure Options where
  watchEnter : Option Bool
  types : Option String
  bounds : Option Bounds
  country : Option String
  fields : Option (List String)
deriving Repr, DecidableEq

/-- The initialAddress binding, shape lat/lng; a coordinate may be absent. -/
structure InitialAddress where
  lat : Option Int
  lng : Option Int
deriving Repr, DecidableEq

/-- A place object as returned by the widget, the details service or the
geocoder.  Only the members the directive reads are modelled;
address_components is optional because the widget may return a name-only
place (Enter pressed without a dropdown selection). -/
structure Place where
  address_components : Option (List String)
  formatted_address : String
  name : String
deriving Repr, DecidableEq

/-- A prediction returned by AutocompleteService.getPlacePredictions; the
directive only reads its reference member. -/
structure Prediction where
  reference : String
  description : String
deriving Repr, DecidableEq

/-- The filter state of the external Autocomplete widget instance
(scope.gPlace): what setTypes / setBounds / setComponentRestrictions /
setFields last stored.  none represents the cleared state (setTypes with an
empty array, or a null argument), and also the initial unset state. -/
structure Widget where
  typesFilter : Option String
  boundsFilter : Option Bounds
  crFilter : Option String
  fieldsFilter : Option (List String)
deriving Repr, DecidableEq

/-- The request object handed to AutocompleteService.getPlacePredictions in
getPlace.  types holds scope.options.types when that string is truthy and
none for the empty-array fallback of the expression options.types or-else
empty. -/
structure PredictionRequest where
  input : String
  offset : Nat
  componentRestrictions : Option String
  types : Option String
deriving Repr, DecidableEq

/-- The request object handed to PlacesService.getDetails in
getPlaceDetails. -/
structure DetailsRequest where
  fields : List String
  placeId : Option String
  reference : Option String
deriving Repr, DecidableEq

/-- Externally visible effects of one synchronous handler run. -/
inductive Effect where
  | predictionQuery (req : PredictionRequest)
  | detailsQuery (req : DetailsRequest)
  | geocodeQuery (loc : InitialAddress)
  | emit (name : String)
  | warn (msg : String)
  | blur
  | registerFocusOut (text : String)
  | jsError (msg : String)
deriving Repr, DecidableEq

/-- The full mutable state of one directive instance: the scope bindings,
the local variables watchEnter and opts of the link function, the widget
instance, the input element text, the ngModel view value and the details
output. -/
structure DirectiveState where
  options : Option Options
  placeId : Option String
  initialAddress : Option InitialAddress
  watchEnter : Bool
  optsTypes : Option String
  optsBounds : Option Bounds
  optsCR : Option String
  optsFields : Option (List String)
  widget : Widget
  elementVal : String
  viewValue : String
  details : Option Place
deriving Repr, DecidableEq

/-- JavaScript truthiness of an optional string: absent or empty is falsy. -/
def strTruthy : Option String → Bool
  | some s => s ≠ ""
  | none => false

/-- JavaScript truthiness of an optional number: absent or zero is falsy. -/
def numTruthy : Option Int → Bool
  | some n => n ≠ 0
  | none => false

/-- The defaultPlacesFields constant of the link function. -/
def defaultPlacesFields : List String :=
  [ "address_component", "adr_address", "formatted_address", "geometry",
    "icon", "name", "permanently_closed", "photo", "place_id", "plus_code",
    "type", "url", "vicinity" ]

/-- Widget construction at link time: new Autocomplete(element, empty) with
all filters unset, followed by the unguarded read of scope.options.fields
that installs defaultPlacesFields when no fields option was supplied.  When
scope.options is undefined that member read throws a TypeError, so no
widget with the default field list is ever produced. -/
def linkConstructWidget (options : Option Options) : Except String Widget :=
  let w : Widget :=
    { typesFilter := none, boundsFilter := none, crFilter := none,
      fieldsFilter := none }
  match options with
  | none => Except.error "TypeError: cannot read fields of undefined"
  | some o =>
    if o.fields.isNone then
      Except.ok { w with fieldsFilter := some defaultPlacesFields }
    else
      Except.ok w

/-- The initOpts function: re-applies scope.options to the local opts
record, the local watchEnter flag and the widget filters.  The whole body
is guarded by a truthiness test on scope.options, so an undefined options
binding changes nothing.  Inside the guard every recognized sub-option is
either applied or cleared on the widget; the local opts record is only ever
written, never cleared. -/
def initOpts (s : DirectiveState) : DirectiveState :=
  match s.options with
  | none => s
  | some o =>
    let s1 := { s with watchEnter := o.watchEnter == some true }
    let s2 :=
      if strTruthy o.types then
        { s1 with optsTypes := o.types,
                  widget := { s1.widget with typesFilter := o.types } }
      else
        { s1 with widget := { s1.widget with typesFilter := none } }
    let s3 :=
      if o.bounds.isSome then
        { s2 with optsBounds := o.bounds,
                  widget := { s2.widget with boundsFilter := o.bounds } }
      else
        { s2 with widget := { s2.widget with boundsFilter := none } }
    let s4 :=
      if strTruthy o.country then
        { s3 with optsCR := o.country,
                  widget := { s3.widget with crFilter := o.country } }
      else
        { s3 with widget := { s3.widget with crFilter := none } }
    if o.fields.isSome then
      { s4 with optsFields := o.fields,
                widget := { s4.widget with fieldsFilter := o.fields } }
    else
      { s4 with widget := { s4.widget with fieldsFilter := none } }

/-- Construction of the request object of getPlaceDetails: the fields
member is always the default list; placeId is added when scope.placeId is
truthy; reference is added from list[0] when a prediction list was passed.
Indexing an empty array yields undefined, whose reference member read
throws. -/
def mkDetailsRequest (s : DirectiveState) (list : Option (List Prediction)) :
    Except String DetailsRequest :=
  let r0 : DetailsRequest :=
    { fields := defaultPlacesFields, placeId := none, reference := none }
  let r1 := if strTruthy s.placeId then { r0 with placeId := s.placeId } else r0
  match list with
  | none => Except.ok r1
  | some [] => Except.error "TypeError: cannot read reference of undefined"
  | some (p :: _) => Except.ok { r1 with reference := some p.reference }

/-- The getPlaceDetails function up to the asynchronous callback: it issues
one getDetails request (or throws while building it). -/
def getPlaceDetails (s : DirectiveState) (list : Option (List Prediction)) :
    List Effect :=
  match mkDetailsRequest s list with
  | Except.error e => [Effect.jsError e]
  | Except.ok r => [Effect.detailsQuery r]

/-- The detailsresult callback of PlacesService.getDetails: on OK status it
writes the formatted address into the view value and the element, stores
the full details object and arms the one-shot focusout guard; on any other
status it does nothing at all. -/
def detailsresult (s : DirectiveState) (detailsResult : Place)
    (status : String) : DirectiveState × List Effect :=
  if status = "OK" then
    ({ s with viewValue := detailsResult.formatted_address,
              elementVal := detailsResult.formatted_address,
              details := some detailsResult },
     [Effect.registerFocusOut detailsResult.formatted_address])
  else
    (s, [])

/-- The getPlace function up to its asynchronous callback: when the typed
name is nonempty it builds a getPlacePredictions request, reading
scope.options.types unconditionally (a TypeError when options is
undefined) and the possibly stale local opts.componentRestrictions. -/
def getPlace (s : DirectiveState) (name : String) :
    Except String (Option PredictionRequest) :=
  if name.length > 0 then
    match s.options with
    | none => Except.error "TypeError: cannot read types of undefined"
    | some o =>
      Except.ok (some
        { input := name,
          offset := name.length,
          componentRestrictions := s.optsCR,
          types := if strTruthy o.types then o.types else none })
  else
    Except.ok none

/-- The listentoresult callback of getPlacePredictions: a null or empty
prediction list emits the no-results event once and clears details to
null; otherwise getPlaceDetails is invoked with the list. -/
def listentoresult (s : DirectiveState) (list : Option (List Prediction)) :
    DirectiveState × List Effect :=
  match list with
  | none =>
    ({ s with details := none }, [Effect.emit "ngPlacesAutocomplete:no-results"])
  | some [] =>
    ({ s with details := none }, [Effect.emit "ngPlacesAutocomplete:no-results"])
  | some (p :: rest) =>
    (s, getPlaceDetails s (some (p :: rest)))

/-- The else branch of the place_changed listener (no usable selection):
with watchEnter set it runs getPlace on the current view value and then
blurs the element; a synchronous throw inside getPlace skips the blur.
With watchEnter unset it does nothing. -/
def placeChangedNoSelection (s : DirectiveState) : DirectiveState × List Effect :=
  if s.watchEnter then
    match getPlace s s.viewValue with
    | Except.error e => (s, [Effect.jsError e])
    | Except.ok none => (s, [Effect.blur])
    | Except.ok (some req) => (s, [Effect.predictionQuery req, Effect.blur])
  else
    (s, [])

/-- The place_changed listener: a result carrying address_components stores
the full result as details and pushes the element text into the view
value; any other result falls through to the watchEnter branch. -/
def placeChanged (s : DirectiveState) (result : Option Place) :
    DirectiveState × List Effect :=
  match result with
  | some r =>
    if r.address_components.isSome then
      ({ s with details := some r, viewValue := s.elementVal }, [])
    else
      placeChangedNoSelection s
  | none => placeChangedNoSelection s

/-- Truthiness of the condition result and-also result.address_components
of the place_changed listener. -/
def resultHasComponents : Option Place → Bool
  | some r => r.address_components.isSome
  | none => false

/-- The keydown/keypress handler: on key code 13 the current element text
is pushed into the view value; nothing else happens. -/
def keydown (s : DirectiveState) (key : Nat) : DirectiveState :=
  if key = 13 then { s with viewValue := s.elementVal } else s

/-- The initPlace watcher body: a truthy scope.placeId triggers
getPlaceDetails with no prediction list. -/
def initPlace (s : DirectiveState) : List Effect :=
  if strTruthy s.placeId then getPlaceDetails s none else []

/-- The initInitialAddress watcher body: a truthy scope.placeId only warns;
otherwise a truthy initialAddress with truthy lat and lng members issues
one reverse-geocode request; anything else does nothing. -/
def initInitialAddress (s : DirectiveState) : List Effect :=
  if strTruthy s.placeId then
    [Effect.warn "Using PlaceId to configure the Autocomplete component."]
  else
    match s.initialAddress with
    | none => []
    | some a =>
      if numTruthy a.lat && numTruthy a.lng then
        [Effect.geocodeQuery a]
      else
        []

/-- The anonymous geocoder callback of initInitialAddress: on OK status
with a first result it populates view value, element text and details and
arms the focusout guard; an OK status with no first result or a non-OK
status only warns. -/
def geocodeCallback (s : DirectiveState) (results : List Place)
    (status : String) : DirectiveState × List Effect :=
  if status = "OK" then
    match results with
    | r :: _ =>
      ({ s with viewValue := r.formatted_address,
                elementVal := r.formatted_address,
                details := some r },
       [Effect.registerFocusOut r.formatted_address])
    | [] => (s, [Effect.warn "No results found"])
  else
    (s, [Effect.warn ("Geocoder failed due to: " ++ status)])

/-- Recognizer of the no-results scope event among effects. -/
def isNoResultsEmit : Effect → Bool
  | Effect.emit n => n = "ngPlacesAutocomplete:no-results"
  | _ => false

/-- Recognizer of reverse-geocode requests among effects. -/
def isGeocodeQuery : Effect → Bool
  | Effect.geocodeQuery _ => true
  | _ => false

/-! Concrete fixtures used by witnesses and counterexamples. -/

/-- A widget with every filter unset, as right after construction. -/
def freshWidget : Widget :=
  { typesFilter := none, boundsFilter := none, crFilter := none,
    fieldsFilter := none }

/-- A widget holding filters from an earlier options value. -/
def staleWidget : Widget :=
  { typesFilter := some "(cities)", boundsFilter := none,
    crFilter := some "ca", fieldsFilter := some ["name"] }

/-- An options object with watchEnter on, a types filter and a country. -/
def exOptions : Options :=
  { watchEnter := some true, types := some "geocode", bounds := none,
    country := some "us", fields := none }

/-- An options object that only supplies a fields list. -/
def fieldsOptions : Options :=
  { watchEnter := none, types := none, bounds := none, country := none,
    fields := some ["name", "place_id"] }

/-- A full place result as delivered for a dropdown selection. -/
def c1Place : Place :=
  { address_components := some ["150", "Park Row", "New York"],
    formatted_address := "150 Park Row, New York, NY",
    name := "150 Park Row" }

/-- A prediction as delivered by getPlacePredictions. -/
def c2Pred : Prediction :=
  { reference := "REF-1", description := "150 Park Row, New York" }

/-- A directive state with watchEnter on and no placeId binding. -/
def exState : DirectiveState :=
  { options := some exOptions, placeId := none, initialAddress := none,
    watchEnter := true, optsTypes := some "geocode", optsBounds := none,
    optsCR := some "us", optsFields := none, widget := freshWidget,
    elementVal := "150 Park Row, New York, NY",
    viewValue := "150 Park Row", details := none }

/-- A directive state with watchEnter on and a truthy placeId binding. -/
def c2State : DirectiveState :=
  { options := some exOptions, placeId := some "abc123",
    initialAddress := none, watchEnter := true, optsTypes := some "geocode",
    optsBounds := none, optsCR := none, optsFields := none,
    widget := freshWidget, elementVal := "150 Park Row", viewValue := "",
    details := none }

/-- A directive state whose options binding is undefined while the widget
still holds filters from an earlier options value. -/
def c4State : DirectiveState :=
  { options := none, placeId := none, initialAddress := none,
    watchEnter := false, optsTypes := some "(cities)", optsBounds := none,
    optsCR := some "ca", optsFields := some ["name"], widget := staleWidget,
    elementVal := "", viewValue := "", details := none }

/-- A directive state with a defined options value and a stale widget. -/
def c4bState : DirectiveState :=
  { options := some exOptions, placeId := none, initialAddress := none,
    watchEnter := false, optsTypes := some "(cities)", optsBounds := none,
    optsCR := some "ca", optsFields := some ["name"], widget := staleWidget,
    elementVal := "", viewValue := "", details := none }

/-- A directive state with both placeId and initialAddress supplied. -/
def c5State : DirectiveState :=
  { options := some exOptions, placeId := some "abc123",
    initialAddress := some { lat := some 40, lng := some (-74) },
    watchEnter := false, optsTypes := none, optsBounds := none,
    optsCR := none, optsFields := none, widget := freshWidget,
    elementVal := "", viewValue := "", details := none }

/-- A directive state with no placeId and an initialAddress whose latitude
is zero, which JavaScript truthiness treats as absent. -/
def c6ZeroState : DirectiveState :=
  { options := some exOptions, placeId := none,
    initialAddress := some { lat := some 0, lng := some (-74) },
    watchEnter := false, optsTypes := none, optsBounds := none,
    optsCR := none, optsFields := none, widget := freshWidget,
    elementVal := "", viewValue := "", details := none }

/-- A directive state with no placeId and a nonzero initialAddress. -/
def c6State : DirectiveState :=
  { options := some exOptions, placeId := none,
    initialAddress := some { lat := some 40, lng := some (-74) },
    watchEnter := false, optsTypes := none, optsBounds := none,
    optsCR := none, optsFields := none, widget := freshWidget,
    elementVal := "", viewValue := "", details := none }

/-- A directive state with watchEnter off. -/
def c8State : DirectiveState :=
  { options := some exOptions, placeId := none, initialAddress := none,
    watchEnter := false, optsTypes := none, optsBounds := none,
    optsCR := none, optsFields := none, widget := freshWidget,
    elementVal := "150 Park Row", viewValue := "", details := none }

/-- A directive state whose options supply a fields list and whose placeId
is truthy. -/
def c10State : DirectiveState :=
  { options := some fieldsOptions, placeId := some "abc123",
    initialAddress := none, watchEnter := false, optsTypes := none,
    optsBounds := none, optsCR := none, optsFields := none,
    widget := freshWidget, elementVal := "", viewValue := "",
    details := none }

/-! Helper lemmas shared by several claims. -/

/-- For a defined options value, initOpts leaves each widget filter in
exactly the set-or-cleared state dictated by that options value, and sets
the local watchEnter flag. -/
theorem initOpts_widget_spec (s : DirectiveState) (o : Options)
    (ho : s.options = some o) :
    (initOpts s).widget.typesFilter =
      (if strTruthy o.types then o.types else none) ∧
    (initOpts s).widget.boundsFilter = o.bounds ∧
    (initOpts s).widget.crFilter =
      (if strTruthy o.country then o.country else none) ∧
    (initOpts s).widget.fieldsFilter = o.fields ∧
    (initOpts s).watchEnter = (o.watchEnter == some true) := by
  obtain ⟨so, sp, sa, sw, t1, b1, c1, f1, wid, ev, vv, dt⟩ := s
  simp only at ho
  subst ho
  simp only [initOpts]
  refine ⟨?_, ?_, ?_, ?_, ?_⟩ <;>
    split_ifs <;>
      simp_all [Option.not_isSome_iff_eq_none]

/-! Claim theorems. -/

/-- C1: for a selection event whose place result has address components
present, the place_changed listener stores the full result object as
details, sets the bound view value to the text currently displayed in the
field, issues no further effects, and — given that the widget displayed
the selection's formatted address — leaves bound value, displayed text and
formatted address all equal. -/
theorem C1_dropdown_selection (s : DirectiveState) (r : Place)
    (hac : r.address_components.isSome = true)
    (hdisp : s.elementVal = r.formatted_address) :
    (placeChanged s (some r)).1.details = some r ∧
    (placeChanged s (some r)).1.viewValue =
      (placeChanged s (some r)).1.elementVal ∧
    (placeChanged s (some r)).1.elementVal = r.formatted_address ∧
    (placeChanged s (some r)).2 = [] := by
  simp [placeChanged, hac, hdisp]

/-- Witness for C1 at a concrete state and place result. -/
theorem C1_dropdown_selection_witness :
    (placeChanged exState (some c1Place)).1.details = some c1Place ∧
    (placeChanged exState (some c1Place)).1.viewValue =
      (placeChanged exState (some c1Place)).1.elementVal ∧
    (placeChanged exState (some c1Place)).1.elementVal =
      c1Place.formatted_address ∧
    (placeChanged exState (some c1Place)).2 = [] :=
  C1_dropdown_selection exState c1Place (by decide) (by decide)

/-- C7: a details callback with a non-OK status changes nothing and emits
nothing, and a geocoder callback with a non-OK status changes nothing and
only produces a console warning; neither propagates an error. -/
theorem C7_non_ok_status_skips_update (s : DirectiveState) (resp : Place)
    (results : List Place) (st : String) (h : st ≠ "OK") :
    detailsresult s resp st = (s, []) ∧
    (geocodeCallback s results st).1 = s ∧
    (geocodeCallback s results st).2 =
      [Effect.warn ("Geocoder failed due to: " ++ st)] := by
  simp [detailsresult, geocodeCallback, h]

/-- Witness for C7 at a concrete non-OK status. -/
theorem C7_non_ok_status_skips_update_witness :
    detailsresult exState c1Place "ZERO_RESULTS" = (exState, []) ∧
    (geocodeCallback exState [c1Place] "ZERO_RESULTS").1 = exState ∧
    (geocodeCallback exState [c1Place] "ZERO_RESULTS").2 =
      [Effect.warn ("Geocoder failed due to: " ++ "ZERO_RESULTS")] :=
  C7_non_ok_status_skips_update exState c1Place [c1Place] "ZERO_RESULTS"
    (by decide)

/-- C8: pressing Enter with watchEnter off and no usable dropdown
selection sets the bound view value to exactly the literal element text
and produces no effects at all, in particular no prediction or details
request. -/
theorem C8_enter_without_watchEnter (s : DirectiveState)
    (result : Option Place) (hw : s.watchEnter = false)
    (hns : resultHasComponents result = false) :
    (placeChanged (keydown s 13) result).1 =
      { s with viewValue := s.elementVal } ∧
    (placeChanged (keydown s 13) result).2 = [] := by
  cases result with
  | none => simp [placeChanged, placeChangedNoSelection, keydown, hw]
  | some r =>
    simp only [resultHasComponents] at hns
    simp [placeChanged, placeChangedNoSelection, keydown, hw, hns]

/-- Witness for C8 at a concrete state. -/
theorem C8_enter_without_watchEnter_witness :
    (placeChanged (keydown c8State 13) none).1 =
      { c8State with viewValue := c8State.elementVal } ∧
    (placeChanged (keydown c8State 13) none).2 = [] :=
  C8_enter_without_watchEnter c8State none (by decide) (by decide)

/-- C2 counterexample: with a truthy placeId binding, the details request
issued after an Enter press and a nonempty prediction list carries that
placeId in addition to the first prediction's reference, so the request is
not keyed by the reference and nothing else. -/
theorem C2_counterexample :
    (listentoresult (placeChanged (keydown c2State 13) none).1
        (some [c2Pred])).2 =
      [Effect.detailsQuery
        { fields := defaultPlacesFields, placeId := some "abc123",
          reference := some "REF-1" }] := by
  decide

/-- C2 amended: an Enter press with watchEnter on issues one prediction
query for the current field text; a nonempty prediction list issues one
details request keyed by the first prediction's reference, carrying the
default field list and additionally the placeId binding when that is
truthy; a details callback with OK status writes the formatted address to
the displayed text and the bound view value and stores the full details
object. -/
theorem C2_enter_chain (s : DirectiveState) (o : Options) (p : Prediction)
    (rest : List Prediction) (resp : Place)
    (hw : s.watchEnter = true) (ho : s.options = some o)
    (hn : 0 < s.elementVal.length) :
    (placeChanged (keydown s 13) none).2 =
      [Effect.predictionQuery
        { input := s.elementVal, offset := s.elementVal.length,
          componentRestrictions := s.optsCR,
          types := if strTruthy o.types then o.types else none },
       Effect.blur] ∧
    (listentoresult (placeChanged (keydown s 13) none).1
        (some (p :: rest))).2 =
      [Effect.detailsQuery
        { fields := defaultPlacesFields,
          placeId := if strTruthy s.placeId then s.placeId else none,
          reference := some p.reference }] ∧
    (detailsresult s resp "OK").1.viewValue = resp.formatted_address ∧
    (detailsresult s resp "OK").1.elementVal = resp.formatted_address ∧
    (detailsresult s resp "OK").1.details = some resp := by
  by_cases hpid : strTruthy s.placeId <;>
    simp [placeChanged, placeChangedNoSelection, keydown, getPlace,
          listentoresult, getPlaceDetails, mkDetailsRequest, detailsresult,
          hw, ho, hn, hpid]

/-- Witness for C2 at a concrete state, prediction and details result. -/
theorem C2_enter_chain_witness :
    (placeChanged (keydown exState 13) none).2 =
      [Effect.predictionQuery
        { input := exState.elementVal, offset := exState.elementVal.length,
          componentRestrictions := exState.optsCR,
          types := if strTruthy exOptions.types then exOptions.types
                   else none },
       Effect.blur] ∧
    (listentoresult (placeChanged (keydown exState 13) none).1
        (some [c2Pred])).2 =
      [Effect.detailsQuery
        { fields := defaultPlacesFields,
          placeId := if strTruthy exState.placeId then exState.placeId
                     else none,
          reference := some c2Pred.reference }] ∧
    (detailsresult exState c1Place "OK").1.viewValue =
      c1Place.formatted_address ∧
    (detailsresult exState c1Place "OK").1.elementVal =
      c1Place.formatted_address ∧
    (detailsresult exState c1Place "OK").1.details = some c1Place :=
  C2_enter_chain exState exOptions c2Pred [] c1Place (by decide) (by decide)
    (by decide)

/-- C3: an Enter press with watchEnter on whose prediction query comes back
with a null or empty list sets details to null, emits exactly one
no-results notification over the whole interaction, and leaves the
displayed field text unchanged. -/
theorem C3_zero_predictions (s : DirectiveState) (o : Options)
    (hw : s.watchEnter = true) (ho : s.options = some o)
    (hn : 0 < s.elementVal.length) :
    (listentoresult (placeChanged (keydown s 13) none).1 none).1.details =
      none ∧
    (listentoresult (placeChanged (keydown s 13) none).1
        (some [])).1.details = none ∧
    List.countP isNoResultsEmit
      ((placeChanged (keydown s 13) none).2 ++
        (listentoresult (placeChanged (keydown s 13) none).1 none).2) = 1 ∧
    List.countP isNoResultsEmit
      ((placeChanged (keydown s 13) none).2 ++
        (listentoresult (placeChanged (keydown s 13) none).1
          (some [])).2) = 1 ∧
    (listentoresult (placeChanged (keydown s 13) none).1
        none).1.elementVal = s.elementVal ∧
    (listentoresult (placeChanged (keydown s 13) none).1
        (some [])).1.elementVal = s.elementVal := by
  simp [placeChanged, placeChangedNoSelection, keydown, getPlace,
        listentoresult, hw, ho, hn, isNoResultsEmit, List.countP_cons]

/-- Witness for C3 at a concrete state. -/
theorem C3_zero_predictions_witness :
    (listentoresult (placeChanged (keydown exState 13) none).1
        none).1.details = none ∧
    (listentoresult (placeChanged (keydown exState 13) none).1
        (some [])).1.details = none ∧
    List.countP isNoResultsEmit
      ((placeChanged (keydown exState 13) none).2 ++
        (listentoresult (placeChanged (keydown exState 13) none).1
          none).2) = 1 ∧
    List.countP isNoResultsEmit
      ((placeChanged (keydown exState 13) none).2 ++
        (listentoresult (placeChanged (keydown exState 13) none).1
          (some [])).2) = 1 ∧
    (listentoresult (placeChanged (keydown exState 13) none).1
        none).1.elementVal = exState.elementVal ∧
    (listentoresult (placeChanged (keydown exState 13) none).1
        (some [])).1.elementVal = exState.elementVal :=
  C3_zero_predictions exState exOptions (by decide) (by decide) (by decide)

/-- C4 counterexample: with the options binding undefined, every
recognized sub-option is omitted, yet initOpts clears nothing — the
widget's type filter and country restriction keep their values from an
earlier options value. -/
theorem C4_counterexample :
    c4State.options = none ∧
    (initOpts c4State).widget.typesFilter = some "(cities)" ∧
    (initOpts c4State).widget.crFilter = some "ca" := by
  decide

/-- C4 amended: for every defined options value, each recognized
sub-option that is present is applied to the widget and each that is
omitted is explicitly cleared; but when the options binding itself is
undefined, initOpts changes nothing and all widget filters keep their
previous values. -/
theorem C4_options_set_or_clear (s : DirectiveState) :
    (s.options = none → initOpts s = s) ∧
    (∀ o, s.options = some o →
      (initOpts s).widget.typesFilter =
        (if strTruthy o.types then o.types else none) ∧
      (initOpts s).widget.boundsFilter = o.bounds ∧
      (initOpts s).widget.crFilter =
        (if strTruthy o.country then o.country else none) ∧
      (initOpts s).widget.fieldsFilter = o.fields) := by
  constructor
  · intro h
    unfold initOpts
    rw [h]
  · intro o ho
    obtain ⟨h1, h2, h3, h4, _⟩ := initOpts_widget_spec s o ho
    exact ⟨h1, h2, h3, h4⟩

/-- Witness for C4: the undefined-options part at one concrete state and
the defined-options part at another. -/
theorem C4_options_set_or_clear_witness :
    initOpts c4State = c4State ∧
    ((initOpts c4bState).widget.typesFilter =
        (if strTruthy exOptions.types then exOptions.types else none) ∧
      (initOpts c4bState).widget.boundsFilter = exOptions.bounds ∧
      (initOpts c4bState).widget.crFilter =
        (if strTruthy exOptions.country then exOptions.country else none) ∧
      (initOpts c4bState).widget.fieldsFilter = exOptions.fields) :=
  ⟨(C4_options_set_or_clear c4State).1 rfl,
   (C4_options_set_or_clear c4bState).2 exOptions rfl⟩

/-- C5: with a truthy placeId binding and an initialAddress also supplied,
the initPlace watcher issues exactly one details request keyed by the
placeId with no reference, the initInitialAddress watcher only produces
the warning notice, and neither watcher issues any reverse-geocode
request. -/
theorem C5_placeid_precedence (s : DirectiveState)
    (hp : strTruthy s.placeId = true)
    (_ha : s.initialAddress.isSome = true) :
    initPlace s =
      [Effect.detailsQuery
        { fields := defaultPlacesFields, placeId := s.placeId,
          reference := none }] ∧
    initInitialAddress s =
      [Effect.warn "Using PlaceId to configure the Autocomplete component."] ∧
    List.countP isGeocodeQuery (initPlace s ++ initInitialAddress s) = 0 := by
  simp [initPlace, initInitialAddress, getPlaceDetails, mkDetailsRequest,
        hp, isGeocodeQuery, List.countP_cons]

/-- Witness for C5 at a concrete state with both bindings supplied. -/
theorem C5_placeid_precedence_witness :
    initPlace c5State =
      [Effect.detailsQuery
        { fields := defaultPlacesFields, placeId := c5State.placeId,
          reference := none }] ∧
    initInitialAddress c5State =
      [Effect.warn "Using PlaceId to configure the Autocomplete component."] ∧
    List.countP isGeocodeQuery
      (initPlace c5State ++ initInitialAddress c5State) = 0 :=
  C5_placeid_precedence c5State (by decide) (by decide)

/-- C6 counterexample: with no placeId and an initialAddress carrying
lat equal to zero and lng equal to minus seventy-four — both coordinates
present — the watcher issues no reverse-geocode request at all, because
the code tests the coordinates for JavaScript truthiness and zero is
falsy. -/
theorem C6_counterexample :
    c6ZeroState.placeId = none ∧
    c6ZeroState.initialAddress =
      some { lat := some 0, lng := some (-74) } ∧
    initInitialAddress c6ZeroState = [] := by
  decide

/-- C6 amended: with the placeId binding falsy and an initialAddress whose
lat and lng are both present and nonzero, the watcher issues exactly one
reverse-geocode request; an OK geocoder response with a first result
populates displayed text, bound view value and details from that result;
an OK response with no results or a non-OK status leaves the state
untouched and only produces a console warning, propagating no error. -/
theorem C6_initial_address_geocode (s : DirectiveState)
    (a : InitialAddress) (r : Place) (rest results : List Place)
    (st : String) (hp : strTruthy s.placeId = false)
    (ha : s.initialAddress = some a) (hlat : numTruthy a.lat = true)
    (hlng : numTruthy a.lng = true) (hst : st ≠ "OK") :
    initInitialAddress s = [Effect.geocodeQuery a] ∧
    (geocodeCallback s (r :: rest) "OK").1.elementVal =
      r.formatted_address ∧
    (geocodeCallback s (r :: rest) "OK").1.viewValue =
      r.formatted_address ∧
    (geocodeCallback s (r :: rest) "OK").1.details = some r ∧
    (geocodeCallback s [] "OK").1 = s ∧
    (geocodeCallback s [] "OK").2 = [Effect.warn "No results found"] ∧
    (geocodeCallback s results st).1 = s ∧
    (geocodeCallback s results st).2 =
      [Effect.warn ("Geocoder failed due to: " ++ st)] := by
  simp [initInitialAddress, geocodeCallback, hp, ha, hlat, hlng, hst]

/-- Witness for C6 at a concrete state, geocode result and failure
status. -/
theorem C6_initial_address_geocode_witness :
    initInitialAddress c6State =
      [Effect.geocodeQuery { lat := some 40, lng := some (-74) }] ∧
    (geocodeCallback c6State [c1Place] "OK").1.elementVal =
      c1Place.formatted_address ∧
    (geocodeCallback c6State [c1Place] "OK").1.viewValue =
      c1Place.formatted_address ∧
    (geocodeCallback c6State [c1Place] "OK").1.details = some c1Place ∧
    (geocodeCallback c6State [] "OK").1 = c6State ∧
    (geocodeCallback c6State [] "OK").2 =
      [Effect.warn "No results found"] ∧
    (geocodeCallback c6State [] "ZERO_RESULTS").1 = c6State ∧
    (geocodeCallback c6State [] "ZERO_RESULTS").2 =
      [Effect.warn ("Geocoder failed due to: " ++ "ZERO_RESULTS")] :=
  C6_initial_address_geocode c6State
    { lat := some 40, lng := some (-74) } c1Place [] [] "ZERO_RESULTS"
    (by decide) (by decide) (by decide) (by decide) (by decide)

/-- C9: with the options binding undefined, widget construction at link
time throws a type error on the unguarded read of options.fields, so the
default field list is never installed on a constructed widget; and an
Enter-triggered prediction query for a nonempty text throws on the
unguarded read of options.types — the nominally optional options binding
is required on these paths. -/
theorem C9_options_binding_required (s : DirectiveState) (name : String)
    (ho : s.options = none) (hn : 0 < name.length) :
    linkConstructWidget none =
      Except.error "TypeError: cannot read fields of undefined" ∧
    getPlace s name =
      Except.error "TypeError: cannot read types of undefined" := by
  constructor
  · rfl
  · simp [getPlace, ho, hn]

/-- Witness for C9 at a concrete state with an undefined options
binding. -/
theorem C9_options_binding_required_witness :
    linkConstructWidget none =
      Except.error "TypeError: cannot read fields of undefined" ∧
    getPlace c4State "a" =
      Except.error "TypeError: cannot read types of undefined" :=
  C9_options_binding_required c4State "a" (by decide) (by decide)

/-- C10: every successfully built details request carries exactly the
fixed default field list, while a fields value supplied in options is
applied only to the autocomplete widget's filter — it never reaches a
details request. -/
theorem C10_details_fields_fixed (s : DirectiveState)
    (list : Option (List Prediction)) (req : DetailsRequest) (o : Options)
    (fl : List String) (hreq : mkDetailsRequest s list = Except.ok req)
    (ho : s.options = some o) (hf : o.fields = some fl) :
    req.fields = defaultPlacesFields ∧
    (initOpts s).widget.fieldsFilter = some fl := by
  constructor
  · by_cases hpid : strTruthy s.placeId
    · cases list with
      | none =>
        simp [mkDetailsRequest, hpid] at hreq
        simp [← hreq]
      | some l =>
        cases l with
        | nil => simp [mkDetailsRequest, hpid] at hreq
        | cons p rest =>
          simp [mkDetailsRequest, hpid] at hreq
          simp [← hreq]
    · cases list with
      | none =>
        simp [mkDetailsRequest, hpid] at hreq
        simp [← hreq]
      | some l =>
        cases l with
        | nil => simp [mkDetailsRequest, hpid] at hreq
        | cons p rest =>
          simp [mkDetailsRequest, hpid] at hreq
          simp [← hreq]
  · obtain ⟨_, _, _, h4, _⟩ := initOpts_widget_spec s o ho
    rw [h4, hf]

/-- Witness for C10 at a concrete state and prediction list. -/
theorem C10_details_fields_fixed_witness :
    DetailsRequest.fields
      { fields := defaultPlacesFields, placeId := some "abc123",
        reference := some "REF-1" } = defaultPlacesFields ∧
    (initOpts c10State).widget.fieldsFilter = some ["name", "place_id"] :=
  C10_details_fields_fixed c10State (some [c2Pred])
    { fields := defaultPlacesFields, placeId := some "abc123",
      reference := some "REF-1" }
    fieldsOptions ["name", "place_id"] (by rfl) (by rfl) (by rfl)

end NgPlacesAutocomplete
